import Mathlib

/-!
Shallow embedding of the `ockam_app` application-state module
(`implementations/rust/ockam/ockam_app/src/app/app_state.rs`) and of the
`project show` command (`implementations/rust/ockam/ockam_command/src/project/show.rs`).

Stateful Rust code is embedded as explicit state passing over plain Lean
structures.  External effects (stopping a node manager, binding a TCP
listener, opening the LMDB store, the cloud API of the show command) are
modelled by environment records whose boolean / option fields say how the
external call would answer; the embedded functions consume those records
exactly where the source performs the call.  A Rust `panic!` / `.unwrap()`
failure is a distinct outcome constructor, never a Lean error.

Allocation identity of freshly constructed Rust values (a brand new
`NodeManager`, a brand new `LmdbModelStateRepository`) is modelled by a ghost
allocation clock `clock` carried in `AppState`: every construction stamps the
current clock value as the `id` of the new object and advances the clock, so
"freshly constructed" is expressible as an `id` that no pre-existing object
carries.
-/

namespace Ockam

/-- Persistent on-disk CLI state data: the observable parts used by this
module.  `identitiesRepositoryPath` models
`state.identities.identities_repository_path()` (`none` = the call errors, so
an `.unwrap()` on it panics); `defaultProject` models `state.projects.default()`
(`none` = `Err`, the user has no default project). -/
structure CliStateData where
  id : Nat
  identitiesRepositoryPath : Option String
  defaultProject : Option String
  deriving DecidableEq

/-- A `CliState` handle: its current data together with the outcome that a
call to `CliState::reset` would produce (`none` = the reset call fails,
`some d` = the freshly constructed state it returns). -/
structure CliState where
  data : CliStateData
  resetResult : Option CliStateData
  deriving DecidableEq

/-- Global arguments frozen at bootstrap (`GlobalArgs::default().set_quiet()`). -/
structure GlobalArgs where
  quiet : Bool
  deriving DecidableEq

/-- The terminal carried by `CommandGlobalOpts`; the app always uses
`Terminal::quiet()`. -/
inductive Terminal where
  | quietTerminal
  | stdoutTerminal
  deriving DecidableEq

/-- `CommandGlobalOpts`: global args, a CliState snapshot, and a terminal. -/
structure CommandGlobalOpts where
  global_args : GlobalArgs
  state : CliState
  terminal : Terminal
  deriving DecidableEq

/-- Modelled from the spec: a single outlet entry of the model state
(`model_state.rs` is not among the sources).  The spec describes an outlet as
a named forwarder for a local TCP service, e.g. alias `"my-outlet"` at
`"127.0.0.1:5000"`. -/
structure OutletConfig where
  alias_name : String
  socket_addr : String
  deriving DecidableEq

/-- Modelled from the spec: `ModelState` aggregates the user's declared
outlets; its default value is empty (`model_state.rs` is not among the
sources). -/
structure ModelState where
  tcp_outlets : List OutletConfig
  deriving DecidableEq

/-- `ModelState::default()`: the empty model state. -/
def ModelState.default : ModelState := ⟨[]⟩

/-- A TCP listener as returned by `tcp.listen`: we track the flow-control
identifier the node manager retains. -/
structure Listener where
  flowControlId : Nat
  deriving DecidableEq

/-- A `NodeManager`: ghost identity `id` (allocation stamp), the context it
was created against, whether it is running, the flow-control identifier of
its TCP listener, and its current outlets. -/
structure NodeManager where
  id : Nat
  ctx : Nat
  running : Bool
  flowControlId : Nat
  outlets : List OutletConfig
  deriving DecidableEq

/-- The error of a failing repository `store`. -/
inductive StoreErr where
  | storeFailed
  deriving DecidableEq

/-- Modelled from the spec: an `LmdbModelStateRepository` handle
(`model_state_repository.rs` is not among the sources).  `id` is its ghost
allocation stamp, `boundPath` the identity path the store was opened at,
`storeOk` whether a `store` call succeeds, `stored` what this handle has
durably persisted, and `loadResult` what a `load` call answers (`none` = the
load errors, `some none` = nothing was ever persisted). -/
structure Repository where
  id : Nat
  boundPath : String
  storeOk : Bool
  stored : Option ModelState
  loadResult : Option (Option ModelState)
  deriving DecidableEq

/-- Modelled from the spec: `store` durably persists the full state, or fails
with a storage-level error that is surfaced to the caller. -/
def Repository.store (r : Repository) (m : ModelState) : Except StoreErr Repository :=
  if r.storeOk then .ok { r with stored := some m } else .error .storeFailed

/-- Modelled from the spec: `load` returns `None` if no state has ever been
written, otherwise the last committed state; it may fail with a storage
error. -/
def Repository.load (r : Repository) : Option (Option ModelState) :=
  r.loadResult

/-- Environment for the LMDB repository constructor: whether
`LmdbModelStateRepository::new` succeeds at a given path, and how the
resulting handle behaves. -/
structure LmdbEnv where
  newOk : String → Bool
  storeOk : Bool
  loadResult : Option (Option ModelState)

/-- Modelled from the spec: `LmdbModelStateRepository::new(path)` opens (or
creates) the embedded KV database at the identity path; failure to open is
surfaced.  The new handle is bound to the given path.  `clock` is the ghost
allocation stamp of the fresh handle. -/
def LmdbModelStateRepository.new (env : LmdbEnv) (path : String) (clock : Nat) :
    Option Repository :=
  if env.newOk path then
    some { id := clock, boundPath := path, storeOk := env.storeOk,
           stored := none, loadResult := env.loadResult }
  else none

/-- Environment for `make_node_manager`: how each external call inside the
factory answers.  `listen addr` is the answer of `tcp.listen(addr, options)`. -/
structure TcpEnv where
  initNodeStateOk : Bool
  tcpCreateOk : Bool
  listen : String → Option Listener
  trustBuildOk : Bool
  nmCreateOk : Bool

/-- The error cases of `make_node_manager`, one per fallible step. -/
inductive MakeErr where
  | initNodeState
  | tcpCreate
  | listenFailed
  | trustContext
  | nmCreate
  deriving DecidableEq

/-- `make_node_manager(ctx, opts)`: init node state, create the TCP
transport, bind a listener to `"127.0.0.1:0"`, build the trust context, and
construct the `NodeManager` retaining the listener's flow-control identifier.
The second component is the trace of addresses passed to `tcp.listen`.
`clock` is the ghost allocation stamp of the fresh manager.  `opts` is
threaded for signature fidelity; the external answers live in `env`. -/
def make_node_manager (ctx : Nat) (env : TcpEnv) (opts : CommandGlobalOpts)
    (clock : Nat) : Except MakeErr NodeManager × List String :=
  let _ := opts
  if ¬ env.initNodeStateOk then (.error .initNodeState, [])
  else if ¬ env.tcpCreateOk then (.error .tcpCreate, [])
  else
    match env.listen "127.0.0.1:0" with
    | none => (.error .listenFailed, ["127.0.0.1:0"])
    | some l =>
      if ¬ env.trustBuildOk then (.error .trustContext, ["127.0.0.1:0"])
      else if ¬ env.nmCreateOk then (.error .nmCreate, ["127.0.0.1:0"])
      else
        (.ok { id := clock, ctx := ctx, running := true,
               flowControlId := l.flowControlId, outlets := [] },
         ["127.0.0.1:0"])

/-- The `AppState` struct: context handle, frozen global args, CliState,
node-manager worker content, model state, repository handle, and the ghost
allocation clock (strictly above every allocation stamp already handed
out). -/
structure AppState where
  context : Nat
  global_args : GlobalArgs
  state : CliState
  node_manager : NodeManager
  model_state : ModelState
  model_state_repository : Repository
  clock : Nat
  deriving DecidableEq

/-- `AppState::options`: the frozen global args, a fresh CliState snapshot
and a quiet terminal. -/
def AppState.options (a : AppState) : CommandGlobalOpts :=
  { global_args := a.global_args, state := a.state, terminal := .quietTerminal }

/-- `state.projects.default()`: the default project or an error. -/
def CliStateData.projectsDefault (d : CliStateData) : Except String String :=
  match d.defaultProject with
  | some p => .ok p
  | none => .error "default project not found"

/-- `AppState::is_enrolled`: `self.state().await.projects.default().is_ok()`. -/
def AppState.is_enrolled (a : AppState) : Bool :=
  match a.state.data.projectsDefault with
  | .ok _ => true
  | .error _ => false

/-- `AppState::tcp_outlet_list`: read-lock the node manager and return its
outlet list. -/
def AppState.tcp_outlet_list (a : AppState) : List OutletConfig :=
  a.node_manager.outlets

/-- `AppState::model`: acquire the model-state read lock, apply `f` to a
shared reference, return its result.  The second component is the (only
possible) post state of the `&self` receiver. -/
def AppState.model {T : Type} (a : AppState) (f : ModelState → T) : T × AppState :=
  (f a.model_state, a)

/-- `AppState::model_mut`: acquire the model-state write lock, apply `f` in
place, then, still under the write lock, call the current repository's
`store` on the mutated state; surface a store error, keeping the in-memory
mutation. -/
def AppState.model_mut (a : AppState) (f : ModelState → ModelState) :
    Except StoreErr Unit × AppState :=
  let m := f a.model_state
  match a.model_state_repository.store m with
  | .ok r => (.ok (), { a with model_state := m, model_state_repository := r })
  | .error e => (.error e, { a with model_state := m })

/-- `AppState::reset_state`: call `CliState::reset`; on success install the
returned state, on failure log and continue with the old state.  It always
returns `Ok(())`, so the embedding is total. -/
def AppState.reset_state (a : AppState) : AppState :=
  match a.state.resetResult with
  | some d => { a with state := { data := d, resetResult := none } }
  | none => a

/-- Environment for `AppState::reset`: the answer of
`NodeManagerWorker::stop`, the factory environment, and the LMDB
environment. -/
structure ResetEnv where
  stopOk : Bool
  tcp : TcpEnv
  lmdb : LmdbEnv

/-- Outcome of `AppState::reset` on a `&self` receiver: success, a surfaced
error, or a Rust panic (the identity-path `.unwrap()`).  Each constructor
carries the receiver's state at that point. -/
inductive ResetOutcome where
  | ok : AppState → ResetOutcome
  | err : AppState → ResetOutcome
  | panicked : AppState → ResetOutcome
  deriving DecidableEq

/-- The receiver's state carried by a reset outcome. -/
def ResetOutcome.appState : ResetOutcome → AppState
  | .ok a => a
  | .err a => a
  | .panicked a => a

/-- Whether a reset outcome is the success case. -/
def ResetOutcome.isOk : ResetOutcome → Bool
  | .ok _ => true
  | _ => false

/-- Whether a reset outcome is the panic case. -/
def ResetOutcome.isPanicked : ResetOutcome → Bool
  | .panicked _ => true
  | _ => false

/-- The tail of `AppState::reset` after the successful stop of the old node
manager: reset the CLI state (log-and-continue semantics inside
`reset_state`), build a new node manager against the refreshed options, swap
it into the worker, then `.unwrap()` the identity path of the now-current
CliState and rebuild the LMDB repository at it. -/
def reset_after_stop (a : AppState) (env : ResetEnv) : ResetOutcome :=
  let a1 := { a with node_manager := { a.node_manager with running := false } }
  let a2 := a1.reset_state
  match (make_node_manager a2.context env.tcp a2.options a2.clock).1 with
  | .error _ => .err a2
  | .ok nm =>
    let a3 := { a2 with node_manager := nm, clock := a2.clock + 1 }
    match a3.state.data.identitiesRepositoryPath with
    | none => .panicked a3
    | some path =>
      match LmdbModelStateRepository.new env.lmdb path a3.clock with
      | none => .err a3
      | some repo =>
        .ok { a3 with model_state_repository := repo, clock := a3.clock + 1 }

/-- `AppState::reset`: stop the old node manager via the worker (abort on
failure), then run the tail. -/
def AppState.reset (a : AppState) (env : ResetEnv) : ResetOutcome :=
  if ¬ env.stopOk then .err a
  else reset_after_stop a env

/-- The reachability invariant maintained by bootstrap and reset: every
allocation stamp already handed out is below the clock. -/
def AppState.WF (a : AppState) : Prop :=
  a.node_manager.id < a.clock ∧ a.model_state_repository.id < a.clock

instance (a : AppState) : Decidable a.WF := by
  unfold AppState.WF; infer_instance

/-- Environment for `AppState::new` bootstrap: the factory and LMDB
environments, the fresh context handle built by `NodeBuilder`, the CliState
loaded by `CommandGlobalOpts::new`, and the answer of each individual outlet
re-creation during replay. -/
structure NewEnv where
  context : Nat
  initialState : CliState
  tcp : TcpEnv
  lmdb : LmdbEnv
  createOutletOk : OutletConfig → Bool

/-- Modelled from the spec: the outlet replay
`crate::shared_service::tcp::outlet::model_state::load_model_state` (not
among the sources) re-creates every persisted outlet in the node manager;
if any individual replay step fails, the load as a whole fails (`none`,
aborting bootstrap). -/
def replay_model_state (env : NewEnv) (ctx : Nat) (nm : NodeManager) :
    List OutletConfig → Option NodeManager
  | [] => some nm
  | o :: rest =>
    if env.createOutletOk o then
      replay_model_state env ctx { nm with outlets := nm.outlets ++ [o] } rest
    else none

/-- `load_model_state` (the free function of `app_state.rs`): load the
persisted `ModelState` from the repository, panicking (`none`) on a load
error; default it when absent; replay it into the node manager.  A replay
failure also aborts (`none`), per the spec-modelled replay. -/
def load_model_state (env : NewEnv) (repo : Repository) (nm : NodeManager)
    (ctx : Nat) : Option (ModelState × NodeManager) :=
  match repo.load with
  | none => none
  | some mOpt =>
    let m := mOpt.getD ModelState.default
    match replay_model_state env ctx nm m.tcp_outlets with
    | none => none
    | some nm1 => some (m, nm1)

/-- `AppState::new` bootstrap: build quiet options, build the context, create
the node manager (`create_node_manager` panics on factory failure), create
the repository (`create_model_state_repository` unwraps the identity path and
panics on open failure), and load + replay the model state.  `none` models a
bootstrap panic aborting the process. -/
def AppState.new (env : NewEnv) : Option AppState :=
  match (make_node_manager env.context env.tcp
      { global_args := { quiet := true }, state := env.initialState,
        terminal := .quietTerminal } 0).1 with
  | .error _ => none
  | .ok nm0 =>
    match env.initialState.data.identitiesRepositoryPath with
    | none => none
    | some path =>
      match LmdbModelStateRepository.new env.lmdb path 1 with
      | none => none
      | some repo =>
        match load_model_state env repo nm0 env.context with
        | none => none
        | some (m, nm1) =>
          some { context := env.context, global_args := { quiet := true },
                 state := env.initialState, node_manager := nm1, model_state := m,
                 model_state_repository := repo, clock := 2 }

/-! The `project show` command (`ockam_command/src/project/show.rs`). -/

/-- The parsed `show` command arguments. -/
structure ShowCommand where
  space_id : String
  project_id : String
  address : String
  overwrite : Bool
  deriving DecidableEq

/-- The error of each fallible step of the `show` function. -/
inductive ShowErr where
  | tcpCreate
  | loadIdentity
  | identifier
  | parseAddress
  | messagingClient
  | getProject
  | ctxStop
  deriving DecidableEq

/-- The diagnostic message attached to a `show` error.  The only message
built by `show.rs` itself is `anyhow!("failed to parse address")`; the other
steps pass through messages of the underlying errors, which this fragment
does not determine (modelled as opaque). -/
def ShowErr.message : ShowErr → String
  | .parseAddress => "failed to parse address"
  | .tcpCreate => "<transport error>"
  | .loadIdentity => "<identity error>"
  | .identifier => "<identifier error>"
  | .messagingClient => "<client error>"
  | .getProject => "<cloud error>"
  | .ctxStop => "<stop error>"

/-- Environment for the `show` command: how each external call answers.
`multiaddrToRoute` is `crate::util::multiaddr_to_route`, `getProject` the
cloud call keyed by space id, project id and the identity's key id. -/
structure ShowEnv where
  tcpCreateOk : Bool
  loadIdentityOk : Bool
  identifierOf : Option String
  multiaddrToRoute : String → Option Nat
  clientOk : Bool
  getProject : String → String → String → Option String
  stopOk : Bool

/-- The `show` function body: create a TCP transport, load or create the
identity, take its identifier, resolve the multi-address into a route
(failing with `parseAddress` when it cannot be resolved), open the messaging
client, fetch the project, print it, and stop the context.  The boolean says
whether `ctx.stop()` completed inside `show` (the source only stops the
context on the success path). -/
def showCmd (env : ShowEnv) (cmd : ShowCommand) : Except ShowErr Unit × Bool :=
  if ¬ env.tcpCreateOk then (.error .tcpCreate, false)
  else if ¬ env.loadIdentityOk then (.error .loadIdentity, false)
  else
    match env.identifierOf with
    | none => (.error .identifier, false)
    | some keyId =>
      match env.multiaddrToRoute cmd.address with
      | none => (.error .parseAddress, false)
      | some _route =>
        if ¬ env.clientOk then (.error .messagingClient, false)
        else
          match env.getProject cmd.space_id cmd.project_id keyId with
          | none => (.error .getProject, false)
          | some _res =>
            if env.stopOk then (.ok (), true) else (.error .ctxStop, false)

/-- The observable outcome of running the command to completion. -/
structure RunOutcome where
  exitCode : Nat
  errorMessage : Option String
  contextRunning : Bool
  deriving DecidableEq

/-- Modelled from the spec: `embedded_node` (`crate::util`, not among the
sources) runs the body in a fresh node context; any step failure stops the
context and returns a single flat error; the process exits 0 on success and
non-zero with a printed error otherwise. -/
def embedded_node (env : ShowEnv) (cmd : ShowCommand) : RunOutcome :=
  match showCmd env cmd with
  | (.ok _, stopped) =>
    { exitCode := 0, errorMessage := none, contextRunning := ¬ stopped }
  | (.error e, _) =>
    { exitCode := 1, errorMessage := some e.message, contextRunning := false }

/-- `ShowCommand::run`: delegate to `embedded_node(show, command)`. -/
def ShowCommand.run (env : ShowEnv) (cmd : ShowCommand) : RunOutcome :=
  embedded_node env cmd

/-! Concrete sample values used to instantiate the theorems below. -/

/-- A CliState data sample with a present identity path and no default
project. -/
def sampleData : CliStateData :=
  { id := 0, identitiesRepositoryPath := some "/home/user/.ockam/identities/data",
    defaultProject := none }

/-- The CliState data a successful `CliState::reset` would install. -/
def sampleFreshData : CliStateData :=
  { id := 10, identitiesRepositoryPath := some "/fresh/identities/data",
    defaultProject := none }

/-- A CliState whose `reset` succeeds. -/
def sampleState : CliState := { data := sampleData, resetResult := some sampleFreshData }

/-- A running node manager sample. -/
def sampleNM : NodeManager :=
  { id := 0, ctx := 7, running := true, flowControlId := 3, outlets := [] }

/-- A repository sample bound to the sample identity path. -/
def sampleRepo : Repository :=
  { id := 1, boundPath := "/home/user/.ockam/identities/data", storeOk := true,
    stored := none, loadResult := some none }

/-- A reachable `AppState` sample (clock above both allocation stamps). -/
def sampleApp : AppState :=
  { context := 7, global_args := { quiet := true }, state := sampleState,
    node_manager := sampleNM, model_state := ModelState.default,
    model_state_repository := sampleRepo, clock := 2 }

/-- A factory environment where every external call succeeds. -/
def sampleTcpEnv : TcpEnv :=
  { initNodeStateOk := true, tcpCreateOk := true, listen := fun _ => some ⟨9⟩,
    trustBuildOk := true, nmCreateOk := true }

/-- An LMDB environment where opening and storing succeed and nothing is
persisted yet. -/
def sampleLmdbEnv : LmdbEnv :=
  { newOk := fun _ => true, storeOk := true, loadResult := some none }

/-- A reset environment where every external call succeeds. -/
def sampleResetEnv : ResetEnv :=
  { stopOk := true, tcp := sampleTcpEnv, lmdb := sampleLmdbEnv }

/-- A reset environment whose `NodeManagerWorker::stop` fails. -/
def stopFailEnv : ResetEnv := { sampleResetEnv with stopOk := false }

/-- An app state whose `CliState::reset` fails (log-and-continue path). -/
def staleApp : AppState :=
  { sampleApp with state := { data := sampleData, resetResult := none } }

/-- CliState data with a missing identity repository path. -/
def noPathData : CliStateData :=
  { id := 11, identitiesRepositoryPath := none, defaultProject := none }

/-- An app state whose `CliState::reset` succeeds but installs a state with
no identity repository path, reaching the `.unwrap()` in `reset`. -/
def panicApp : AppState :=
  { sampleApp with state := { data := sampleData, resetResult := some noPathData } }

/-- The node manager produced by the sample factory environment at stamp 5. -/
def wNM : NodeManager :=
  { id := 5, ctx := 7, running := true, flowControlId := 9, outlets := [] }

/-- A persisted outlet sample. -/
def sampleOutlet : OutletConfig :=
  { alias_name := "my-outlet", socket_addr := "127.0.0.1:5000" }

/-- A bootstrap environment whose persisted model state holds one outlet and
whose outlet re-creation always fails. -/
def replayFailEnv : NewEnv :=
  { context := 7, initialState := sampleState, tcp := sampleTcpEnv,
    lmdb := { newOk := fun _ => true, storeOk := true,
              loadResult := some (some ⟨[sampleOutlet]⟩) },
    createOutletOk := fun _ => false }

/-- A show-command environment where everything up to the address resolution
succeeds and the given multi-address cannot be resolved into a route. -/
def badAddressShowEnv : ShowEnv :=
  { tcpCreateOk := true, loadIdentityOk := true, identifierOf := some "key-1",
    multiaddrToRoute := fun _ => none, clientOk := true,
    getProject := fun _ _ _ => some "project", stopOk := true }

/-- A show command sample with an unparseable address. -/
def badAddressCmd : ShowCommand :=
  { space_id := "s1", project_id := "p1", address := "/bad/address", overwrite := false }

/-! Theorems. -/

/-- Claim C2: `model_mut` applies `f` in place to the model state, then calls
the current repository's `store` on the mutated state; when `store` succeeds
the result is `Ok` and the mutated state is what was persisted; when `store`
fails the error is returned while the in-memory model state keeps the
mutation; no other `AppState` component changes.  (The source performs all of
this under the model-state write lock; the sequential embedding renders the
lock-protected critical section as one atomic step.) -/
theorem model_mut_stores_mutated_state (a : AppState) (f : ModelState → ModelState) :
    (a.model_mut f).2.model_state = f a.model_state ∧
    (a.model_mut f).1 =
      (if a.model_state_repository.storeOk then .ok () else .error .storeFailed) ∧
    (a.model_mut f).2.model_state_repository.stored =
      (if a.model_state_repository.storeOk then some (f a.model_state)
       else a.model_state_repository.stored) ∧
    (a.model_mut f).2.context = a.context ∧
    (a.model_mut f).2.state = a.state ∧
    (a.model_mut f).2.node_manager = a.node_manager := by
  unfold AppState.model_mut Repository.store
  by_cases h : a.model_state_repository.storeOk <;> simp [h]

/-- Claim C10: `model f` returns `f` applied to the current model state and
changes nothing: the whole `AppState` (model state, repository, and every
other field) is unchanged and nothing is persisted. -/
theorem model_is_pure_read (a : AppState) {T : Type} (f : ModelState → T) :
    (a.model f).1 = f a.model_state ∧
    (a.model f).2 = a ∧
    (a.model f).2.model_state_repository.stored = a.model_state_repository.stored := by
  exact ⟨rfl, rfl, rfl⟩

/-- Claim C7: `is_enrolled` is true exactly when the current CliState has a
default project (`projects.default()` returns `Ok`). -/
theorem is_enrolled_iff_default_project (a : AppState) :
    a.is_enrolled = a.state.data.defaultProject.isSome := by
  unfold AppState.is_enrolled CliStateData.projectsDefault
  cases a.state.data.defaultProject <;> simp

/-- Claim C4: when stopping the current node manager fails, `reset` returns
the error with the `AppState` entirely unchanged: the CliState is not reset,
no new node manager is built or swapped in, and the repository is not
recreated. -/
theorem reset_aborts_on_stop_failure (a : AppState) (env : ResetEnv)
    (h : env.stopOk = false) :
    a.reset env = .err a := by
  unfold AppState.reset
  simp [h]

/-- Witness for claim C4 at a concrete app state and environment. -/
theorem reset_aborts_on_stop_failure_witness :
    sampleApp.reset stopFailEnv = .err sampleApp :=
  reset_aborts_on_stop_failure sampleApp stopFailEnv rfl

/-- Helper: on success, `make_node_manager` returns a manager created against
the given context, stamped with the given clock, with no outlets. -/
theorem make_node_manager_ok_fields (ctx : Nat) (env : TcpEnv)
    (opts : CommandGlobalOpts) (clock : Nat) (nm : NodeManager)
    (h : (make_node_manager ctx env opts clock).1 = .ok nm) :
    nm.ctx = ctx ∧ nm.id = clock ∧ nm.outlets = [] := by
  unfold make_node_manager at h
  by_cases h1 : env.initNodeStateOk
  case neg => simp [h1] at h
  by_cases h2 : env.tcpCreateOk
  case neg => simp [h1, h2] at h
  cases hl : env.listen "127.0.0.1:0" with
  | none => simp [h1, h2, hl] at h
  | some l =>
    by_cases h3 : env.trustBuildOk
    case neg => simp [h1, h2, hl, h3] at h
    by_cases h4 : env.nmCreateOk
    case neg => simp [h1, h2, hl, h3, h4] at h
    simp [h1, h2, hl, h3, h4] at h
    subst h
    exact ⟨rfl, rfl, rfl⟩

/-- Claim C6: whenever `make_node_manager` succeeds, the one and only address
it passed to `tcp.listen` is the loopback address `"127.0.0.1:0"` (port 0,
OS-chosen ephemeral port), and the returned manager retains the listener's
flow-control identifier in its transport options. -/
theorem make_node_manager_binds_loopback (ctx : Nat) (env : TcpEnv)
    (opts : CommandGlobalOpts) (clock : Nat) (nm : NodeManager) (tr : List String)
    (h : make_node_manager ctx env opts clock = (.ok nm, tr)) :
    tr = ["127.0.0.1:0"] ∧
    ∃ l, env.listen "127.0.0.1:0" = some l ∧ nm.flowControlId = l.flowControlId := by
  unfold make_node_manager at h
  by_cases h1 : env.initNodeStateOk
  case neg => simp [h1] at h
  by_cases h2 : env.tcpCreateOk
  case neg => simp [h1, h2] at h
  cases hl : env.listen "127.0.0.1:0" with
  | none => simp [h1, h2, hl] at h
  | some l =>
    by_cases h3 : env.trustBuildOk
    case neg => simp [h1, h2, hl, h3] at h
    by_cases h4 : env.nmCreateOk
    case neg => simp [h1, h2, hl, h3, h4] at h
    simp [h1, h2, hl, h3, h4, Prod.ext_iff] at h
    obtain ⟨hnm, htr⟩ := h
    subst hnm
    exact ⟨htr.symm, l, rfl, rfl⟩

/-- Witness for claim C6 at the sample environment. -/
theorem make_node_manager_binds_loopback_witness :
    (["127.0.0.1:0"] : List String) = ["127.0.0.1:0"] ∧
    ∃ l, sampleTcpEnv.listen "127.0.0.1:0" = some l ∧
      wNM.flowControlId = l.flowControlId :=
  make_node_manager_binds_loopback 7 sampleTcpEnv sampleApp.options 5 wNM
    ["127.0.0.1:0"] (by rfl)

/-- Claim C9: for the project-show command, when every step before address
resolution succeeds and the given multi-address cannot be resolved into a
route, the command fails with the message `"failed to parse address"`, exits
non-zero (exit code 1), and no node context remains running. -/
theorem show_unparseable_address (env : ShowEnv) (cmd : ShowCommand)
    (keyId : String) (h1 : env.tcpCreateOk = true) (h2 : env.loadIdentityOk = true)
    (h3 : env.identifierOf = some keyId)
    (h4 : env.multiaddrToRoute cmd.address = none) :
    ShowCommand.run env cmd =
      { exitCode := 1, errorMessage := some "failed to parse address",
        contextRunning := false } := by
  unfold ShowCommand.run embedded_node showCmd
  simp [h1, h2, h3, h4, ShowErr.message]

/-- Witness for claim C9 at a concrete environment and command. -/
theorem show_unparseable_address_witness :
    ShowCommand.run badAddressShowEnv badAddressCmd =
      { exitCode := 1, errorMessage := some "failed to parse address",
        contextRunning := false } :=
  show_unparseable_address badAddressShowEnv badAddressCmd "key-1" rfl rfl rfl rfl



/-- Helper: a successful `LmdbModelStateRepository.new` yields a handle
stamped with the given clock, bound to the given path, answering the
environment's load result. -/
theorem lmdb_new_fields (env : LmdbEnv) (path : String) (clock : Nat)
    (r : Repository) (h : LmdbModelStateRepository.new env path clock = some r) :
    r.id = clock ∧ r.boundPath = path ∧ r.loadResult = env.loadResult := by
  unfold LmdbModelStateRepository.new at h
  by_cases hn : env.newOk path
  · simp only [hn, if_true, Option.some.injEq] at h
    subst h
    exact ⟨rfl, rfl, rfl⟩
  · simp [hn] at h

/-- Claim C5 counterexample: a reachable app state and an environment where
every external call succeeds, yet `reset` panics (the identity-path
`.unwrap()`), refuting that the mutators always return a typed result rather
than aborting the process. -/
theorem reset_panic_reachable_cex :
    (panicApp.reset sampleResetEnv).isPanicked = true := by decide

/-- Claim C5 (amended): the accessors and `model_mut` are total, and `reset`
returns a typed result except in one case: it panics exactly on the
identity-path `.unwrap()`, i.e. only when the CliState current after the
reset-state step (the freshly installed state if `CliState::reset` succeeded,
the retained one otherwise) has no identity repository path. -/
theorem reset_panics_only_on_missing_identity_path (a : AppState)
    (env : ResetEnv) (x : AppState) (h : a.reset env = .panicked x) :
    (a.state.resetResult.getD a.state.data).identitiesRepositoryPath = none ∧
    x.state.data = a.state.resetResult.getD a.state.data := by
  unfold AppState.reset at h
  by_cases hs : env.stopOk
  case neg => simp [hs] at h
  unfold reset_after_stop AppState.reset_state at h
  simp only [hs, not_true_eq_false, if_false] at h
  cases hr : a.state.resetResult with
  | none =>
    simp only [hr] at h
    split at h
    · simp at h
    · split at h
      · rename_i heqp
        simp only [ResetOutcome.panicked.injEq] at h
        subst h
        simp only [Option.getD_none]
        exact ⟨heqp, trivial⟩
      · split at h <;> simp at h
  | some d =>
    simp only [hr] at h
    split at h
    · simp at h
    · split at h
      · rename_i heqp
        simp only [ResetOutcome.panicked.injEq] at h
        subst h
        simp only [Option.getD_some]
        exact ⟨heqp, trivial⟩
      · split at h <;> simp at h

/-- Witness for claim C5 (amended) at a concrete panicking input. -/
theorem reset_panics_only_on_missing_identity_path_witness :
    (panicApp.state.resetResult.getD panicApp.state.data).identitiesRepositoryPath
      = none ∧
    ((panicApp.reset sampleResetEnv).appState).state.data =
      panicApp.state.resetResult.getD panicApp.state.data :=
  reset_panics_only_on_missing_identity_path panicApp sampleResetEnv
    ((panicApp.reset sampleResetEnv).appState) (by decide)

/-- Claim C8: `reset` never touches the context or the global args — in
every outcome the post state carries the same `context` and `global_args` as
before, and on success the freshly built node manager was created against
that very same context (the one created once in `new` is reused throughout). -/
theorem reset_preserves_context_and_args (a : AppState) (env : ResetEnv) :
    (a.reset env).appState.context = a.context ∧
    (a.reset env).appState.global_args = a.global_args ∧
    ∀ a1, a.reset env = .ok a1 → a1.node_manager.ctx = a.context := by
  have key : ∀ r, a.reset env = r →
      r.appState.context = a.context ∧ r.appState.global_args = a.global_args ∧
      ∀ a1, r = .ok a1 → a1.node_manager.ctx = a.context := by
    intro r h
    unfold AppState.reset at h
    by_cases hs : env.stopOk
    case neg =>
      simp only [hs, Bool.false_eq_true, not_false_eq_true, if_true] at h
      subst h
      refine ⟨rfl, rfl, ?_⟩
      intro a1 ha
      simp at ha
    unfold reset_after_stop AppState.reset_state at h
    simp only [hs, not_true_eq_false, if_false] at h
    cases hr : a.state.resetResult with
    | none =>
      simp only [hr] at h
      split at h
      · subst h
        refine ⟨rfl, rfl, ?_⟩
        intro a1 ha
        simp at ha
      · rename_i nm heqm
        split at h
        · subst h
          refine ⟨rfl, rfl, ?_⟩
          intro a1 ha
          simp at ha
        · split at h
          · subst h
            refine ⟨rfl, rfl, ?_⟩
            intro a1 ha
            simp at ha
          · subst h
            refine ⟨rfl, rfl, ?_⟩
            intro a1 ha
            simp only [ResetOutcome.ok.injEq] at ha
            subst ha
            exact (make_node_manager_ok_fields _ _ _ _ _ heqm).1
    | some d =>
      simp only [hr] at h
      split at h
      · subst h
        refine ⟨rfl, rfl, ?_⟩
        intro a1 ha
        simp at ha
      · rename_i nm heqm
        split at h
        · subst h
          refine ⟨rfl, rfl, ?_⟩
          intro a1 ha
          simp at ha
        · split at h
          · subst h
            refine ⟨rfl, rfl, ?_⟩
            intro a1 ha
            simp at ha
          · subst h
            refine ⟨rfl, rfl, ?_⟩
            intro a1 ha
            simp only [ResetOutcome.ok.injEq] at ha
            subst ha
            exact (make_node_manager_ok_fields _ _ _ _ _ heqm).1
  exact key (a.reset env) rfl

/-- Witness for claim C8's success conjunct at a concrete input. -/
theorem reset_preserves_context_and_args_witness :
    (sampleApp.reset sampleResetEnv).appState.context = sampleApp.context ∧
    (sampleApp.reset sampleResetEnv).appState.global_args = sampleApp.global_args ∧
    ((sampleApp.reset sampleResetEnv).appState).node_manager.ctx = sampleApp.context := by
  obtain ⟨h1, h2, h3⟩ := reset_preserves_context_and_args sampleApp sampleResetEnv
  exact ⟨h1, h2, h3 ((sampleApp.reset sampleResetEnv).appState) (by decide)⟩

/-- Claim C1 counterexample: with an environment where stopping, the factory
and the repository rebuild all succeed but `CliState::reset` fails, `reset`
returns success while the CliState is exactly the pre-reset value — so not
all three components are freshly constructed on success. -/
theorem reset_ok_keeps_old_cli_state_cex :
    (staleApp.reset sampleResetEnv).isOk = true ∧
    (staleApp.reset sampleResetEnv).appState.state = staleApp.state := by decide

/-- Claim C1 (amended): for a reachable app state, a successful `reset`
installs a node manager and a repository freshly constructed by this call
(allocation stamps differ from the pre-reset ones), the repository is bound
to the identity path of the post-reset CliState, and the CliState is the
value returned by `CliState::reset` when that call succeeded and the retained
pre-reset CliState when it failed. -/
theorem reset_ok_fresh_components (a : AppState) (env : ResetEnv)
    (a1 : AppState) (hwf : a.WF) (h : a.reset env = .ok a1) :
    a1.node_manager.id ≠ a.node_manager.id ∧
    a1.model_state_repository.id ≠ a.model_state_repository.id ∧
    a1.state.data.identitiesRepositoryPath =
      some a1.model_state_repository.boundPath ∧
    a1.state.data = a.state.resetResult.getD a.state.data := by
  obtain ⟨hw1, hw2⟩ := hwf
  unfold AppState.reset at h
  by_cases hs : env.stopOk
  case neg => simp [hs] at h
  unfold reset_after_stop AppState.reset_state at h
  simp only [hs, not_true_eq_false, if_false] at h
  cases hr : a.state.resetResult with
  | none =>
    simp only [hr] at h
    split at h
    · simp at h
    · rename_i nm heqm
      split at h
      · simp at h
      · rename_i path heqp
        split at h
        · simp at h
        · rename_i repo heql
          simp only [ResetOutcome.ok.injEq] at h
          subst h
          obtain ⟨hrid, hrpath, _⟩ := lmdb_new_fields _ _ _ _ heql
          obtain ⟨hctx, hid, hout⟩ := make_node_manager_ok_fields _ _ _ _ _ heqm
          refine ⟨?_, ?_, ?_, ?_⟩
          · simpa [hid] using ne_of_gt hw1
          · simpa [hrid] using ne_of_gt (lt_trans hw2 (Nat.lt_succ_self a.clock))
          · simp [heqp, hrpath]
          · simp
  | some d =>
    simp only [hr] at h
    split at h
    · simp at h
    · rename_i nm heqm
      split at h
      · simp at h
      · rename_i path heqp
        split at h
        · simp at h
        · rename_i repo heql
          simp only [ResetOutcome.ok.injEq] at h
          subst h
          obtain ⟨hrid, hrpath, _⟩ := lmdb_new_fields _ _ _ _ heql
          obtain ⟨hctx, hid, hout⟩ := make_node_manager_ok_fields _ _ _ _ _ heqm
          refine ⟨?_, ?_, ?_, ?_⟩
          · simpa [hid] using ne_of_gt hw1
          · simpa [hrid] using ne_of_gt (lt_trans hw2 (Nat.lt_succ_self a.clock))
          · simp [heqp, hrpath]
          · simp

/-- Witness for claim C1 (amended) at a concrete successful reset. -/
theorem reset_ok_fresh_components_witness :
    (sampleApp.reset sampleResetEnv).appState.node_manager.id ≠
      sampleApp.node_manager.id ∧
    (sampleApp.reset sampleResetEnv).appState.model_state_repository.id ≠
      sampleApp.model_state_repository.id ∧
    (sampleApp.reset sampleResetEnv).appState.state.data.identitiesRepositoryPath =
      some ((sampleApp.reset sampleResetEnv).appState).model_state_repository.boundPath ∧
    (sampleApp.reset sampleResetEnv).appState.state.data =
      sampleApp.state.resetResult.getD sampleApp.state.data :=
  reset_ok_fresh_components sampleApp sampleResetEnv
    ((sampleApp.reset sampleResetEnv).appState) (by decide) (by decide)

/-- Helper: replaying a list that contains an outlet whose re-creation fails
yields `none`, whatever the node manager. -/
theorem replay_none_of_mem (env : NewEnv) (ctx : Nat) (o : OutletConfig)
    (hf : env.createOutletOk o = false) :
    ∀ (l : List OutletConfig) (nm : NodeManager), o ∈ l →
      replay_model_state env ctx nm l = none := by
  intro l
  induction l with
  | nil =>
    intro nm hmem
    cases hmem
  | cons x rest ih =>
    intro nm hmem
    unfold replay_model_state
    by_cases hx : env.createOutletOk x
    · simp only [hx, if_true]
      have hrest : o ∈ rest := by
        cases hmem with
        | head => rw [hf] at hx; cases hx
        | tail _ hmem2 => exact hmem2
      exact ih _ hrest
    · simp [hx]

/-- Claim C3: during bootstrap, if the persisted model state contains an
outlet whose individual replay step fails, then the model-state load as a
whole fails and `AppState::new` aborts (for any repository handle answering
that persisted state, and whatever the other environment answers are). -/
theorem bootstrap_aborts_on_replay_failure (env : NewEnv) (m : ModelState)
    (o : OutletConfig) (hm : env.lmdb.loadResult = some (some m))
    (ho : o ∈ m.tcp_outlets) (hf : env.createOutletOk o = false) :
    AppState.new env = none ∧
    ∀ repo nm ctx, repo.loadResult = some (some m) →
      load_model_state env repo nm ctx = none := by
  have hload : ∀ repo nm ctx, repo.loadResult = some (some m) →
      load_model_state env repo nm ctx = none := by
    intro repo nm ctx hr
    unfold load_model_state Repository.load
    rw [hr]
    simp only [Option.getD_some]
    rw [replay_none_of_mem env ctx o hf m.tcp_outlets nm ho]
  refine ⟨?_, hload⟩
  unfold AppState.new
  split
  · rfl
  · rename_i nm0 heqm
    split
    · rfl
    · rename_i path heqp
      split
      · rfl
      · rename_i repo heql
        split
        · rfl
        · rename_i pr m1 nm1 heqload
          exfalso
          obtain ⟨_, _, hlr⟩ := lmdb_new_fields _ _ _ _ heql
          rw [hload repo nm0 env.context (hlr.trans hm)] at heqload
          cases heqload

/-- Witness for claim C3 at a concrete failing-replay environment. -/
theorem bootstrap_aborts_on_replay_failure_witness :
    AppState.new replayFailEnv = none ∧
    ∀ repo nm ctx, repo.loadResult = some (some ⟨[sampleOutlet]⟩) →
      load_model_state replayFailEnv repo nm ctx = none :=
  bootstrap_aborts_on_replay_failure replayFailEnv ⟨[sampleOutlet]⟩ sampleOutlet
    rfl (by simp) rfl

end Ockam
